import Mathlib

/-!
Verification development for the monitor-imap-webhook repository.

Shallow embedding of the mailbox-monitoring engine:
* `internal/imapclient` (src/unnamed/part_001): `Connect`, `BeginProcess`,
  `EndProcess`, `drain`, the `IdleLoop` reconnect backoff, `Exec`,
  `updateStats`, `handleNewMessages`;
* `internal/webhook` (src/unnamed/part_000): `BuildPayload`, `mixedWordCount`;
* `cmd/monitor/main.go`: the transient-error fetch retry loop.

Time is modelled in the unit the code uses at each site (seconds for the
reconnect backoff, milliseconds for the drain poll loop).  Wire effects
(dial, login, fetch results, operation outcomes) are passed in explicitly
as parameters, so the functions here are the pure control-flow of the Go
source.
-/

namespace Monitor

/-- An Event carries the UID of a newly observed message
(src/unnamed/part_001 line 21). -/
structure Event where
  UID : Nat
deriving DecidableEq, Repr

/-! ## DrainCoordinator: BeginProcess / EndProcess / drain
(src/unnamed/part_001 lines 115-152).  The counter `activeFetches` is a Go
`int`, modelled as `Int`. -/

/-- BeginProcess increments the active processing counter
(src/unnamed/part_001 line 116). -/
def BeginProcess (n : Int) : Int := n + 1

/-- EndProcess decrements the active processing counter, but only when it is
currently positive (src/unnamed/part_001 lines 119-125). -/
def EndProcess (n : Int) : Int := if 0 < n then n - 1 else n

/-- One call made against the active-fetches counter. -/
inductive ProcOp
  | beginProc
  | endProc
deriving DecidableEq, Repr

/-- Run a sequence of BeginProcess/EndProcess calls from a starting value. -/
def runOps : List ProcOp → Int → Int
  | [], n => n
  | ProcOp.beginProc :: rest, n => runOps rest (BeginProcess n)
  | ProcOp.endProc :: rest, n => runOps rest (EndProcess n)

/-- Number of BeginProcess calls in a sequence. -/
def countBegin : List ProcOp → Nat
  | [] => 0
  | ProcOp.beginProc :: rest => countBegin rest + 1
  | ProcOp.endProc :: rest => countBegin rest

/-- Number of EndProcess calls in a sequence. -/
def countEnd : List ProcOp → Nat
  | [] => 0
  | ProcOp.beginProc :: rest => countEnd rest
  | ProcOp.endProc :: rest => countEnd rest + 1

/-- How the drain loop exits.  `fuelOut` is a modelling artifact marking
exhaustion of the recursion bound; the theorems show it never occurs. -/
inductive DrainExit
  | immediate
  | drained (t : Nat)
  | timedOut (t : Nat)
  | fuelOut
deriving DecidableEq, Repr

/-- One poll iteration of `drain` (src/unnamed/part_001 lines 133-151).
Iteration `k` happens at time `100 * k` milliseconds after entry: the loop
reads the counter, returns if it is zero, returns if the current time is
strictly past the deadline, and otherwise sleeps 100ms.  `counts k` is the
value of `activeFetches` observed at iteration `k`; the external
cancellation channel is taken to be quiet (the claims concern an engine
that is not being cancelled). -/
def drainAux (counts : Nat → Nat) (deadline : Nat) : Nat → Nat → DrainExit
  | 0, _ => DrainExit.fuelOut
  | fuel + 1, k =>
    if counts k = 0 then DrainExit.drained (100 * k)
    else if deadline < 100 * k then DrainExit.timedOut (100 * k)
    else drainAux counts deadline fuel (k + 1)

/-- drain (src/unnamed/part_001 lines 128-152): returns immediately when the
configured DrainTimeout is non-positive, otherwise polls every 100ms until
the counter reaches zero or the deadline has passed.  `timeout` is the
DrainTimeout in milliseconds (a Go `time.Duration`, hence `Int`). -/
def drain (timeout : Int) (counts : Nat → Nat) : DrainExit :=
  if timeout ≤ 0 then DrainExit.immediate
  else drainAux counts timeout.toNat (timeout.toNat + 2) 0

/-- The time (ms after entry) at which the drain loop returned. -/
def exitTime : DrainExit → Nat
  | DrainExit.drained t => t
  | DrainExit.timedOut t => t
  | _ => 0

/-! ## IdleLoop reconnect backoff (src/unnamed/part_001 lines 156-169).
Unit: seconds.  After sleeping, the backoff is doubled only while it is
still below 30 seconds. -/

/-- The backoff update applied after each failed connect: double while
strictly below 30 (src/unnamed/part_001 lines 164-166). -/
def backoffStep (b : Nat) : Nat := if b < 30 then b * 2 else b

/-- backoffDelay n = the sleep (seconds) before retry number n+1 in a run of
consecutive connect failures; the first failure sleeps the initial 1s
(src/unnamed/part_001 lines 156, 163). -/
def backoffDelay : Nat → Nat
  | 0 => 1
  | n + 1 => backoffStep (backoffDelay n)

/-! ## Transport/Session: Connect (src/unnamed/part_001 lines 55-102). -/

/-- The configuration bits Connect consults. -/
structure ConnCfg where
  useTLS : Bool
  startTLS : Bool
deriving DecidableEq, Repr

/-- Outcome of each wire step of a connection attempt, supplied by the
environment: whether the dial, the STARTTLS upgrade, the login and the
mailbox select would succeed. -/
structure DialWorld where
  dialOk : Bool
  startTLSOk : Bool
  loginOk : Bool
  selectOk : Bool
deriving DecidableEq, Repr

/-- The phase a connection attempt failed in, as tagged by the wrapped
error messages "dial:", "starttls:", "login:", "select mailbox:". -/
inductive ConnPhase
  | dial
  | starttls
  | login
  | selectMailbox
deriving DecidableEq, Repr

/-- Result of Connect.  `failed phase loggedOut` records which phase the
returned error identifies and whether Logout was issued on the
partially-established connection; in every `failed` case the session field
`cl.c` is left nil (absent). -/
inductive ConnectResult
  | closedErr
  | alreadyOk
  | failed (phase : ConnPhase) (loggedOut : Bool)
  | connected
deriving DecidableEq, Repr

/-- Connect (src/unnamed/part_001 lines 55-102): closed-check, no-op if a
session exists, then dial (TLS or plain), optional STARTTLS upgrade (plain
dial with StartTLS configured), login, select — each failure aborting with
a phase-tagged error, tearing down via Logout when a connection had been
established, and leaving the session absent. -/
def Connect (closed alreadyConnected : Bool) (cfg : ConnCfg) (w : DialWorld) :
    ConnectResult :=
  if closed then ConnectResult.closedErr
  else if alreadyConnected then ConnectResult.alreadyOk
  else if cfg.useTLS then
    if !w.dialOk then ConnectResult.failed ConnPhase.dial false
    else if !w.loginOk then ConnectResult.failed ConnPhase.login true
    else if !w.selectOk then ConnectResult.failed ConnPhase.selectMailbox true
    else ConnectResult.connected
  else
    if !w.dialOk then ConnectResult.failed ConnPhase.dial false
    else if cfg.startTLS && !w.startTLSOk then
      ConnectResult.failed ConnPhase.starttls true
    else if !w.loginOk then ConnectResult.failed ConnPhase.login true
    else if !w.selectOk then ConnectResult.failed ConnPhase.selectMailbox true
    else ConnectResult.connected

/-- Whether a live session (`cl.c` non-nil) remains after the attempt. -/
def sessionAfter : ConnectResult → Bool
  | ConnectResult.connected => true
  | ConnectResult.alreadyOk => true
  | _ => false

/-- Abbreviation for "the transport-upgrade stage did not fail": either the
connection is TLS from the start, or no STARTTLS upgrade is configured, or
the upgrade succeeds. -/
def upgradeOk (cfg : ConnCfg) (w : DialWorld) : Bool :=
  cfg.useTLS || !cfg.startTLS || w.startTLSOk

/-! ## CommandExecutor: Exec and updateStats
(src/unnamed/part_001 lines 344-402). -/

/-- OpStat aggregates operation metrics (src/unnamed/part_001 lines 24-30).
Durations in milliseconds. -/
structure OpStat where
  count : Nat
  errors : Nat
  lastDuration : Nat
  totalDuration : Nat
  lastError : String
deriving DecidableEq, Repr

/-- The Go zero value of OpStat: a freshly allocated `&OpStat\x7b\x7d`. -/
def OpStat.zero : OpStat := ⟨0, 0, 0, 0, ""⟩

/-- The stats map `opStats`.  A Go map lookup of a missing key yields a
fresh zero OpStat (src/unnamed/part_001 lines 386-391), so the map is
modelled as a total function defaulting to `OpStat.zero`. -/
def StatsMap : Type := String → OpStat

/-- updateStats (src/unnamed/part_001 lines 385-402): bump count, record
last and total duration, and on error bump the error count and store the
error text, otherwise clear it. -/
def updateStats (stats : StatsMap) (op : String) (d : Nat)
    (err : Option String) : StatsMap :=
  fun k =>
    if k = op then
      let st := stats op
      ⟨st.count + 1,
       (match err with
        | some _ => st.errors + 1
        | none => st.errors),
       d,
       st.totalDuration + d,
       (match err with
        | some m => m
        | none => "")⟩
    else stats k

/-- How the raced operation/timeout select of Exec resolves
(src/unnamed/part_001 lines 363-371): the operation returns first with
success or an error, or the context expires first. -/
inductive ExecOutcome
  | ok
  | opError (msg : String)
  | timedOut (ctxMsg : String)
deriving DecidableEq, Repr

/-- The error value Exec derives from the select outcome
(src/unnamed/part_001 lines 365-371); the timeout case wraps the context
error as in the Errorf format string. -/
def execError (op : String) : ExecOutcome → Option String
  | ExecOutcome.ok => none
  | ExecOutcome.opError m => some m
  | ExecOutcome.timedOut c =>
      some (("op ") ++ op ++ (" timeout or canceled: ") ++ c)

/-- Exec (src/unnamed/part_001 lines 344-383): with no live session it
returns the "no connection" error and touches no stats; with a live
session it runs the operation, derives the error from the select outcome,
and records duration and success/failure via updateStats before returning
the error.  `d` is the measured duration. -/
def Exec (sessionLive : Bool) (stats : StatsMap) (op : String)
    (outcome : ExecOutcome) (d : Nat) : Option String × StatsMap :=
  if !sessionLive then (some ("no connection"), stats)
  else
    let err := execError op outcome
    (err, updateStats stats op d err)

/-! ## handleNewMessages (src/unnamed/part_001 lines 417-464). -/

/-- Result of one handleNewMessages call: the Events pushed onto the
events channel (in channel order), the final value of `*baseline`, and the
boolean return value. -/
structure HNMResult where
  emitted : List Event
  baseline : Nat
  handled : Bool
deriving DecidableEq, Repr

/-- handleNewMessages (src/unnamed/part_001 lines 417-464).  Parameters
standing for the environment: `ctxDone` — whether the context is already
cancelled; `idleExit` — `none` when called with nil stop/done channels
(poll and MessageUpdate paths), `some r` when an active IDLE must first be
exited, `r` being the error the IDLE goroutine returned; `fetch` — the
result of the fetch-uids Exec call, on success the UID list the server
returns for the sequence range `baseline+1 .. newTotal`.

Control flow of the source: return false if no growth; if idling, return
false on prior cancellation or on an IDLE exit error (baseline untouched);
then fetch the range — on fetch error only log, on success emit one Event
per fetched message (each emission dropped when the context is cancelled);
in both cases set `*baseline = newTotal` and return true. -/
def handleNewMessages (ctxDone : Bool) (newTotal baseline : Nat)
    (idleExit : Option (Except String Unit))
    (fetch : Except String (List Nat)) : HNMResult :=
  if newTotal ≤ baseline then ⟨[], baseline, false⟩
  else
    let proceed : Bool :=
      match idleExit with
      | none => true
      | some ex =>
        if ctxDone then false
        else
          match ex with
          | Except.ok _ => true
          | Except.error _ => false
    if !proceed then ⟨[], baseline, false⟩
    else
      match fetch with
      | Except.error _ => ⟨[], newTotal, true⟩
      | Except.ok uids =>
          ⟨if ctxDone then [] else uids.map (fun u => Event.mk u),
           newTotal, true⟩

/-! ## Fetch retry loop of the consumer (src/cmd/monitor/main.go
lines 37-60). -/

/-- Whether `pat` is a leading segment of `t` (on code points). -/
def hasPrefixChars : List Char → List Char → Bool
  | _, [] => true
  | [], _ :: _ => false
  | c :: cs, p :: ps => c == p && hasPrefixChars cs ps

/-- Whether `pat` occurs contiguously anywhere in `t` (on code points). -/
def containsChars : List Char → List Char → Bool
  | [], pat => pat.isEmpty
  | c :: rest, pat => hasPrefixChars (c :: rest) pat || containsChars rest pat

/-- Whether `s` occurs in `t` as a contiguous substring (on code points);
the semantics of `strings.Contains` / an unanchored literal regex match. -/
def containsStr (t s : String) : Bool := containsChars t.toList s.toList

/-- ASCII lower-casing of one code point (the case folding relevant to
the all-ASCII patterns the code matches against). -/
def lowerChar (c : Char) : Char :=
  if 0x41 ≤ c.toNat ∧ c.toNat ≤ 0x5A then Char.ofNat (c.toNat + 32) else c

/-- ASCII lower-casing of a string. -/
def lowerStr (s : String) : String := String.mk (s.toList.map lowerChar)

/-- The fixed substrings of the transient-error pattern
`(?i)(short write|timeout|temporarily|reset|closed)` in main.go line 38. -/
def transientPatterns : List String :=
  ["short write", "timeout", "temporarily", "reset", "closed"]

/-- Transient-error classification: the case-insensitive regex match is a
case-folded substring check against the five fixed patterns (ASCII case
folding, which covers the patterns used). -/
def isTransient (msg : String) : Bool :=
  transientPatterns.any (fun p => containsStr (lowerStr msg) p)

/-- maxFetchRetry in main.go line 41: number of extra attempts after the
first. -/
def maxFetchRetry : Nat := 2

/-- One step of the retry loop of main.go lines 42-55.  `results k` is the
outcome of FetchAndParse on attempt `k` (0-based); `rem` is the number of
attempts still allowed after the current one.  Returns the number of
attempts actually made and the final outcome.  On the last allowed attempt
the result is taken as-is; earlier, a transient error retries and any
other outcome stops the loop. -/
def fetchGo (results : Nat → Except String Nat) :
    Nat → Nat → Nat × Except String Nat
  | 0, attempt => (attempt + 1, results attempt)
  | rem + 1, attempt =>
    match results attempt with
    | Except.ok v => (attempt + 1, Except.ok v)
    | Except.error e =>
      if isTransient e then fetchGo results rem (attempt + 1)
      else (attempt + 1, Except.error e)

/-- The whole retry loop: up to `maxFetchRetry` extra attempts beyond the
first (main.go lines 41-55). -/
def fetchWithRetry (results : Nat → Except String Nat) :
    Nat × Except String Nat :=
  fetchGo results maxFetchRetry 0

/-! ## Webhook payload building (src/unnamed/part_000 lines 15-184).
Go `len` and slicing on strings are byte-based; lengths are modelled with
`String.utf8ByteSize` and truncation with a byte-budget take that stops at
the last full code point that fits. -/

/-- The webhook Payload (src/unnamed/part_000 lines 15-31).  `Blocks`
holds opaque values that BuildPayload never inspects. -/
structure Payload where
  UID : Nat
  Subject : String
  From : String
  Date : String
  Body : String
  BodyLines : List String
  Preview : String
  WordCount : Nat
  Mailbox : String
  Timestamp : Int
  RawHTML : String
  Blocks : List String
  HasAttachments : Bool
  Attachments : List String
  AttachmentCount : Nat
deriving DecidableEq, Repr

/-- The Go zero value of Payload: numbers 0, strings empty, slices nil,
booleans false. -/
def Payload.zero : Payload :=
  ⟨0, "", "", "", "", [], "", 0, "", 0, "", [], false, [], 0⟩

/-- Take a prefix of at most `n` bytes of a character list (whole code
points only). -/
def takeBytesAux : List Char → Nat → List Char
  | [], _ => []
  | c :: cs, n =>
    if c.utf8Size ≤ n then c :: takeBytesAux cs (n - c.utf8Size) else []

/-- Byte-budgeted truncation of a string, the model of Go `s[:n]`. -/
def takeBytes (s : String) (n : Nat) : String := String.mk (takeBytesAux s.toList n)

/-- Byte length of a string, the model of Go `len(s)`. -/
def byteLen (s : String) : Nat := s.utf8ByteSize

/-- Whether a trimmed line is skipped as style/template noise
(src/unnamed/part_000 lines 104-106): lowercased, it starts with "@media"
or "table ", or contains "font-family" or an opening brace. -/
def isNoiseLine (ln : String) : Bool :=
  let low := lowerStr ln
  low.startsWith ("@media") || low.startsWith ("table ") ||
    containsStr low ("font-family") || containsStr low ("\x7b")

/-- The first-semantic-line scan of src/unnamed/part_000 lines 97-110:
walk the lines, trim each, skip blanks and noise lines, stop at the first
acceptable line; empty if none. -/
def firstSemanticLine : List String → String
  | [] => ""
  | ln :: rest =>
    let t := ln.trim
    if t = "" then firstSemanticLine rest
    else if isNoiseLine t then firstSemanticLine rest
    else t

/-- The attachment-based preview of src/unnamed/part_000 lines 114-122:
list at most 5 attachment names, noting how many more there are. -/
def attachmentPreview (atts : List String) : String :=
  let maxList := if atts.length > 5 then atts.take 5 else atts
  let base := ("Attachments: ") ++ String.intercalate (", ") maxList
  if atts.length > maxList.length then
    base ++ (" (+") ++ toString (atts.length - maxList.length) ++ (" more)")
  else base

/-- Is `r` an ASCII word character (src/unnamed/part_000 lines 161-163). -/
def isASCIIWordChar (r : Char) : Bool :=
  decide (r.toNat < 128) &&
    (decide (0x61 ≤ r.toNat ∧ r.toNat ≤ 0x7A) ||
     decide (0x41 ≤ r.toNat ∧ r.toNat ≤ 0x5A) ||
     decide (0x30 ≤ r.toNat ∧ r.toNat ≤ 0x39) ||
     r == '_')

/-- Is `r` in the CJK unified block (src/unnamed/part_000 line 164). -/
def isCJK (r : Char) : Bool := decide (0x4E00 ≤ r.toNat ∧ r.toNat ≤ 0x9FFF)

/-- The rune scan of mixedWordCount (src/unnamed/part_000 lines 158-183).
`cur` records whether an ASCII word run is open (the builder non-empty);
a CJK rune flushes the run and counts 1 itself; any other rune flushes. -/
def mwcGo : List Char → Bool → Nat
  | [], cur => if cur then 1 else 0
  | r :: rest, cur =>
    if isASCIIWordChar r then mwcGo rest true
    else if isCJK r then (if cur then 1 else 0) + 1 + mwcGo rest false
    else (if cur then 1 else 0) + mwcGo rest false

/-- mixedWordCount (src/unnamed/part_000 lines 158-184): ASCII words by
runs, CJK per rune, punctuation ignored. -/
def mixedWordCount (s : String) : Nat := mwcGo s.toList false

/-- BuildPayload (src/unnamed/part_000 lines 91-155).  A nil message
pointer yields the zero Payload.  Otherwise: derive the preview source
(first semantic body line, else the flattened body, else an attachment
listing), cap the preview at 140 bytes, truncate the body to `bodyLimit`
bytes when positive, split the body into trimmed non-blank lines, recount
words when the body is non-empty, and default the timestamp to `now`
(the `time.Now().Unix()` value) when unset. -/
def BuildPayload (msg : Option Payload) (bodyLimit : Int) (now : Int) : Payload :=
  match msg with
  | none => Payload.zero
  | some m =>
    let s0 := firstSemanticLine (m.Body.splitOn ("\n"))
    let semanticFirst :=
      if s0 = "" then
        let trimmedBody := ((m.Body.replace ("\n") (" "))).trim
        if trimmedBody = "" ∧ m.HasAttachments = true ∧ 0 < m.Attachments.length then
          attachmentPreview m.Attachments
        else trimmedBody
      else s0
    let preview :=
      if byteLen semanticFirst > 140 then takeBytes semanticFirst 140 ++ ("...")
      else semanticFirst
    let body :=
      if 0 < bodyLimit ∧ (byteLen m.Body : Int) > bodyLimit then
        takeBytes m.Body bodyLimit.toNat ++ ("...<truncated>")
      else m.Body
    let lines := ((body.splitOn ("\n")).map String.trim).filter (fun t => t != "")
    let wordCount := if body ≠ "" then mixedWordCount body else m.WordCount
    let ts := if m.Timestamp = 0 then now else m.Timestamp
    ⟨m.UID, m.Subject, m.From, m.Date, body, lines, preview, wordCount,
     m.Mailbox, ts, m.RawHTML, m.Blocks, m.HasAttachments, m.Attachments,
     m.AttachmentCount⟩

/-! ## Theorems -/

/-- C10: for every body limit (and every current time), BuildPayload
applied to a nil message pointer returns the zero Payload — every field
empty / zero / false — rather than dereferencing the pointer. -/
theorem buildPayload_nil_is_zero (bodyLimit now : Int) :
    BuildPayload none bodyLimit now
      = (⟨0, "", "", "", "", [], "", 0, "", 0, "", [], false, [], 0⟩ : Payload) :=
  rfl

/-- C9: when the configured DrainTimeout is zero or negative, drain
returns immediately without polling at all, whatever the active-fetches
counter does: the drain phase is skipped entirely. -/
theorem drain_nonpositive_timeout_immediate (timeout : Int) (counts : Nat → Nat)
    (h : timeout ≤ 0) : drain timeout counts = DrainExit.immediate := by
  simp [drain, h]

/-- C9 witness: timeout 0 with the counter stuck at 5 still returns
immediately. -/
theorem drain_nonpositive_timeout_immediate_witness :
    drain 0 (fun _ => 5) = DrainExit.immediate :=
  drain_nonpositive_timeout_immediate 0 (fun _ => 5) (by decide)

/-- C3 counterexample: the sleep before the sixth consecutive failed
connect attempt is 32 seconds, not the 30 the claim states — the code
doubles the backoff whenever it is still below 30, so 16 doubles to 32. -/
theorem backoff_sixth_attempt_is_32 :
    backoffDelay 5 = 32 ∧ ¬ backoffDelay 5 = 30 := by decide

/-- C3 amended: in a run of consecutive connect failures the sleeps start
at 1 second and double after each failed attempt while still below 30
seconds, so attempts 1..6 sleep 1, 2, 4, 8, 16, 32 seconds, and every
attempt from the sixth on sleeps exactly 32 seconds (the effective cap is
32, not 30). -/
theorem backoff_sequence_caps_at_32 :
    (List.range 6).map backoffDelay = [1, 2, 4, 8, 16, 32] ∧
    ∀ n : Nat, backoffDelay (n + 5) = 32 := by
  refine ⟨by decide, ?_⟩
  intro n
  induction n with
  | zero => decide
  | succ k ih =>
    have hstep : k + 1 + 5 = (k + 5) + 1 := by omega
    rw [hstep]
    show backoffStep (backoffDelay (k + 5)) = 32
    rw [ih]
    decide

/-- C4 counterexample: with the zero floor in EndProcess, an interleaving
of one EndProcess call followed by one BeginProcess call — one call of
each — leaves the counter at 1, not 0: the claim that any interleaving of
N begins and N ends returns the counter to 0 is false. -/
theorem endProcess_first_breaks_balance :
    countBegin [ProcOp.endProc, ProcOp.beginProc] = 1 ∧
    countEnd [ProcOp.endProc, ProcOp.beginProc] = 1 ∧
    runOps [ProcOp.endProc, ProcOp.beginProc] 0 = 1 ∧
    ¬ runOps [ProcOp.endProc, ProcOp.beginProc] 0 = 0 := by decide

/-- Helper: starting non-negative, the counter never becomes negative. -/
theorem runOps_nonneg (l : List ProcOp) : ∀ v : Int, 0 ≤ v → 0 ≤ runOps l v := by
  induction l with
  | nil => intro v h; simpa [runOps] using h
  | cons op rest ih =>
    intro v h
    cases op with
    | beginProc =>
      exact ih (BeginProcess v) (by unfold BeginProcess; omega)
    | endProc =>
      exact ih (EndProcess v) (by unfold EndProcess; split <;> omega)

/-- Helper: when every consumed-call position sees at least as many begins
as ends, the floor in EndProcess never fires, and the run computes the
exact begin/end difference. -/
theorem runOps_eq_of_takes (l : List ProcOp) :
    ∀ v : Int, 0 ≤ v →
    (∀ k, (countEnd (l.take k) : Int) ≤ (countBegin (l.take k) : Int) + v) →
    runOps l v = v + countBegin l - countEnd l := by
  induction l with
  | nil => intro v hv hk; simp [runOps, countBegin, countEnd]
  | cons op rest ih =>
    intro v hv hk
    cases op with
    | beginProc =>
      have h2 : ∀ k, (countEnd (rest.take k) : Int)
          ≤ (countBegin (rest.take k) : Int) + (v + 1) := by
        intro k
        have hx := hk (k + 1)
        simp only [List.take_succ_cons, countBegin, countEnd] at hx
        push_cast at hx ⊢
        omega
      have hrest := ih (v + 1) (by omega) h2
      simp only [runOps, BeginProcess, countBegin, countEnd] at hrest ⊢
      push_cast at hrest ⊢
      omega
    | endProc =>
      have h1 : (1 : Int) ≤ v := by
        have hx := hk 1
        simp only [List.take_succ_cons, List.take_zero, countBegin, countEnd] at hx
        push_cast at hx
        omega
      have hE : EndProcess v = v - 1 := by unfold EndProcess; split <;> omega
      have h2 : ∀ k, (countEnd (rest.take k) : Int)
          ≤ (countBegin (rest.take k) : Int) + (v - 1) := by
        intro k
        have hx := hk (k + 1)
        simp only [List.take_succ_cons, countBegin, countEnd] at hx
        push_cast at hx ⊢
        omega
      have hrest := ih (v - 1) (by omega) h2
      simp only [runOps, countBegin, countEnd] at hrest ⊢
      rw [hE, hrest]
      push_cast
      omega

/-- C4 amended: the counter starts at 0, BeginProcess increments it,
EndProcess decrements it floored at zero, so it is never negative under
any call sequence; and for every interleaving in which no position has
seen more EndProcess than BeginProcess calls (in particular N begins
followed by their N matching ends), equal totals bring it back to exactly
0.  An interleaving that fires an EndProcess before its BeginProcess can
end above 0 (see the counterexample), but never below. -/
theorem activeFetches_balance (ops : List ProcOp)
    (hpref : ∀ k, k ≤ ops.length →
      countEnd (ops.take k) ≤ countBegin (ops.take k))
    (hbal : countBegin ops = countEnd ops) :
    runOps ops 0 = 0 ∧ ∀ l : List ProcOp, 0 ≤ runOps l 0 := by
  constructor
  · have hk : ∀ k, (countEnd (ops.take k) : Int)
        ≤ (countBegin (ops.take k) : Int) + 0 := by
      intro k
      by_cases h : k ≤ ops.length
      · have := hpref k h
        omega
      · have heq : ops.take k = ops := List.take_of_length_le (by omega)
        rw [heq]
        have := hpref ops.length le_rfl
        rw [List.take_length] at this
        omega
    have := runOps_eq_of_takes ops 0 le_rfl hk
    rw [this, hbal]
    omega
  · intro l
    exact runOps_nonneg l 0 le_rfl

/-- C4 witness: one begin then its end balances to 0, and no sequence
drives the counter negative. -/
theorem activeFetches_balance_witness :
    runOps [ProcOp.beginProc, ProcOp.endProc] 0 = 0 ∧
    ∀ l : List ProcOp, 0 ≤ runOps l 0 :=
  activeFetches_balance [ProcOp.beginProc, ProcOp.endProc] (by decide) (by decide)

/-- C1: in a growth-detection cycle with baseline `b` and observed count
`n > b` (context live, no active IDLE to exit), when the fetch of the
sequence range `b+1 .. n` returns one message per position of the range
`(b, n]` with strictly increasing UIDs — the IMAP fetch contract — the
engine emits exactly one Event per message of the range, the emitted
identifiers are strictly increasing within the cycle, and afterwards the
baseline equals `n`. -/
theorem handleNewMessages_growth_cycle (b n : Nat) (uids : List Nat)
    (hgrow : b < n) (hlen : uids.length = n - b)
    (hinc : List.Chain' (fun u v => u < v) uids) :
    (handleNewMessages false n b none (Except.ok uids)).emitted.length = n - b ∧
    (handleNewMessages false n b none (Except.ok uids)).emitted
      = uids.map (fun u => Event.mk u) ∧
    List.Chain' (fun e f => e.UID < f.UID)
      (handleNewMessages false n b none (Except.ok uids)).emitted ∧
    (handleNewMessages false n b none (Except.ok uids)).baseline = n ∧
    (handleNewMessages false n b none (Except.ok uids)).handled = true := by
  have hle : ¬ n ≤ b := Nat.not_le.mpr hgrow
  refine ⟨?_, ?_, ?_, ?_, ?_⟩ <;>
    simp [handleNewMessages, hle, hlen, List.chain'_map]
  exact hinc

/-- C1 witness: the spec scenario — baseline 42, observed 43, the server
returning the single new message (UID 57): exactly one Event is emitted
and the baseline becomes 43. -/
theorem handleNewMessages_growth_cycle_witness :
    (handleNewMessages false 43 42 none (Except.ok [57])).emitted.length = 43 - 42 ∧
    (handleNewMessages false 43 42 none (Except.ok [57])).emitted
      = [57].map (fun u => Event.mk u) ∧
    List.Chain' (fun e f => e.UID < f.UID)
      (handleNewMessages false 43 42 none (Except.ok [57])).emitted ∧
    (handleNewMessages false 43 42 none (Except.ok [57])).baseline = 43 ∧
    (handleNewMessages false 43 42 none (Except.ok [57])).handled = true :=
  handleNewMessages_growth_cycle 42 43 [57] (by decide) (by decide)
    (List.chain'_singleton 57)

/-- C2 counterexample: with baseline 42 and observed count 43, a failing
fetch-range call still advances the baseline to 43 — `handleNewMessages`
unconditionally assigns the observed total to the baseline after the
fetch, error or not — so the claim that the baseline is not advanced (and
the range recomputed next cycle) is false on the code. -/
theorem fetch_error_still_advances_baseline :
    (handleNewMessages false 43 42 none (Except.error ("fetch failed"))).baseline = 43 ∧
    ¬ (handleNewMessages false 43 42 none (Except.error ("fetch failed"))).baseline = 42 := by
  decide

/-- C2 amended: if the fetch-range call of the GROWTH_DETECTED → FETCHING
transition fails, the failure is only logged and no Event is emitted for
the cycle, but the baseline IS advanced to the observed count and the
call still reports the cycle handled, so the missed range `(b, n]` is NOT
recomputed on the next detection cycle (no reconnect is forced either:
the function merely returns). -/
theorem fetch_error_cycle_behavior (b n : Nat) (e : String) (hgrow : b < n) :
    (handleNewMessages false n b none (Except.error e)).emitted = [] ∧
    (handleNewMessages false n b none (Except.error e)).baseline = n ∧
    (handleNewMessages false n b none (Except.error e)).handled = true := by
  have hle : ¬ n ≤ b := Nat.not_le.mpr hgrow
  simp [handleNewMessages, hle]

/-- C2 amended witness: baseline 42, observed 43, fetch fails: nothing
emitted, baseline advanced to 43. -/
theorem fetch_error_cycle_behavior_witness :
    (handleNewMessages false 43 42 none (Except.error ("boom"))).emitted = [] ∧
    (handleNewMessages false 43 42 none (Except.error ("boom"))).baseline = 43 ∧
    (handleNewMessages false 43 42 none (Except.error ("boom"))).handled = true :=
  fetch_error_cycle_behavior 42 43 ("boom") (by decide)

/-- C5: with a live session, every Exec call records the outcome into
OperationStat[op] regardless of how it ends — count bumped, the measured
duration (from the recorded start time) stored as last and added to
total, the error count bumped exactly on operation error or timeout — and
the derived error is returned; with no live session at call time, Exec
returns the no-session ("no connection") error. -/
theorem exec_records_stats (stats : StatsMap) (op : String)
    (outcome : ExecOutcome) (d : Nat) :
    ((Exec true stats op outcome d).2 op).count = (stats op).count + 1 ∧
    ((Exec true stats op outcome d).2 op).lastDuration = d ∧
    ((Exec true stats op outcome d).2 op).totalDuration
      = (stats op).totalDuration + d ∧
    ((Exec true stats op outcome d).2 op).errors
      = (stats op).errors + (if (execError op outcome).isSome then 1 else 0) ∧
    (Exec true stats op outcome d).1 = execError op outcome ∧
    Exec false stats op outcome d = (some ("no connection"), stats) := by
  cases outcome <;> simp [Exec, updateStats, execError]

/-- C6: connect performs dial, optional transport upgrade, authentication
and mailbox selection in that order: a failing attempt never leaves a
live session; a dial failure is reported as the dial phase (nothing to
tear down); an upgrade / login / select failure is reported as its phase
with the connection established so far logged out; and each phase's
failure implies every earlier phase succeeded. -/
theorem connect_phase_order (cfg : ConnCfg) (w : DialWorld) :
    (Connect false false cfg w = ConnectResult.connected ∨
      sessionAfter (Connect false false cfg w) = false) ∧
    (w.dialOk = false →
      Connect false false cfg w = ConnectResult.failed ConnPhase.dial false) ∧
    (w.dialOk = true → cfg.useTLS = false → cfg.startTLS = true →
      w.startTLSOk = false →
      Connect false false cfg w = ConnectResult.failed ConnPhase.starttls true) ∧
    (w.dialOk = true → upgradeOk cfg w = true → w.loginOk = false →
      Connect false false cfg w = ConnectResult.failed ConnPhase.login true) ∧
    (w.dialOk = true → upgradeOk cfg w = true → w.loginOk = true →
      w.selectOk = false →
      Connect false false cfg w
        = ConnectResult.failed ConnPhase.selectMailbox true) ∧
    (w.dialOk = true → upgradeOk cfg w = true → w.loginOk = true →
      w.selectOk = true → Connect false false cfg w = ConnectResult.connected) ∧
    (∀ lo, Connect false false cfg w = ConnectResult.failed ConnPhase.starttls lo →
      w.dialOk = true ∧ lo = true) ∧
    (∀ lo, Connect false false cfg w = ConnectResult.failed ConnPhase.login lo →
      w.dialOk = true ∧ upgradeOk cfg w = true ∧ lo = true) ∧
    (∀ lo, Connect false false cfg w = ConnectResult.failed ConnPhase.selectMailbox lo →
      w.dialOk = true ∧ upgradeOk cfg w = true ∧ w.loginOk = true ∧ lo = true) := by
  obtain ⟨u, st⟩ := cfg
  obtain ⟨dOk, sOk, lOk, selOk⟩ := w
  cases u <;> cases st <;> cases dOk <;> cases sOk <;> cases lOk <;>
    cases selOk <;>
    exact ⟨by decide, by decide, by decide, by decide, by decide, by decide,
      by decide, by decide, by decide⟩

/-- C6 witness: plain connection with STARTTLS configured, the dial
succeeding and the upgrade failing: the attempt fails in the starttls
phase with the dialed connection logged out. -/
theorem connect_phase_order_witness :
    Connect false false ⟨false, true⟩ ⟨true, false, true, true⟩
      = ConnectResult.failed ConnPhase.starttls true :=
  (connect_phase_order ⟨false, true⟩ ⟨true, false, true, true⟩).2.2.1
    rfl rfl rfl rfl

/-- Helper: with fuel exceeding the remaining polls the deadline admits,
the drain loop never exhausts its recursion bound. -/
theorem drainAux_ne_fuelOut (counts : Nat → Nat) (d : Nat) :
    ∀ fuel k, d + 1 ≤ k + fuel →
      drainAux counts d (fuel + 1) k ≠ DrainExit.fuelOut := by
  intro fuel
  induction fuel with
  | zero =>
    intro k hk
    simp only [drainAux]
    by_cases h0 : counts k = 0
    · simp [h0]
    · have hlt : d < 100 * k := by omega
      simp [h0, hlt]
  | succ f ih =>
    intro k hk
    simp only [drainAux]
    by_cases h0 : counts k = 0
    · simp [h0]
    · by_cases h1 : d < 100 * k
      · simp [h0, h1]
      · simpa [h0, h1] using ih (k + 1) (by omega)

/-- Helper: every exit of the drain loop happens at or before the
deadline plus one 100ms poll interval. -/
theorem drainAux_exitTime_le (counts : Nat → Nat) (d : Nat) :
    ∀ fuel k, 100 * k ≤ d + 100 →
      exitTime (drainAux counts d fuel k) ≤ d + 100 := by
  intro fuel
  induction fuel with
  | zero => intro k hk; simp [drainAux, exitTime]
  | succ f ih =>
    intro k hk
    simp only [drainAux]
    by_cases h0 : counts k = 0
    · simpa [h0, exitTime] using hk
    · by_cases h1 : d < 100 * k
      · simpa [h0, h1, exitTime] using hk
      · simpa [h0, h1] using ih (k + 1) (by omega)

/-- C7 amended: the drain loop always terminates, and it returns at or
before the configured drain timeout plus one 100ms poll interval — not
necessarily by the timeout itself, since the deadline check only fires at
the first poll strictly past the deadline.  This holds for every counter
behaviour, so a consumer that never calls EndProcess delays the engine by
at most the drain timeout plus one poll interval. -/
theorem drain_terminates_bounded (timeout : Int) (counts : Nat → Nat) :
    drain timeout counts ≠ DrainExit.fuelOut ∧
    exitTime (drain timeout counts) ≤ timeout.toNat + 100 := by
  by_cases h : timeout ≤ 0
  · simp [drain, h, exitTime]
  · constructor
    · simp only [drain, if_neg h]
      have heq : timeout.toNat + 2 = (timeout.toNat + 1) + 1 := by omega
      rw [heq]
      exact drainAux_ne_fuelOut counts timeout.toNat (timeout.toNat + 1) 0 (by omega)
    · simp only [drain, if_neg h, exitTime]
      exact drainAux_exitTime_le counts timeout.toNat (timeout.toNat + 2) 0 (by omega)

/-- C7 counterexample: with a 250ms drain timeout and the counter stuck
at 1 (a consumer that never calls EndProcess), the loop polls at 0, 100,
200 and 300ms and returns at 300ms — after the timeout has elapsed — so
the claim that wait returns at or before the timeout is false; the bound
that holds is timeout plus one poll interval. -/
theorem drain_returns_after_timeout :
    drain 250 (fun _ => 1) = DrainExit.timedOut 300 ∧ ¬ (300 : Nat) ≤ 250 := by
  exact ⟨rfl, by decide⟩

/-- Helper: the retry loop makes at most one attempt more than its
remaining-retries budget. -/
theorem fetchGo_attempts_le (results : Nat → Except String Nat) :
    ∀ rem attempt, (fetchGo results rem attempt).1 ≤ attempt + rem + 1 := by
  intro rem
  induction rem with
  | zero => intro a; simp [fetchGo]
  | succ r ih =>
    intro a
    simp only [fetchGo]
    cases results a with
    | ok v => simp
    | error e =>
      by_cases ht : isTransient e
      · have := ih (a + 1)
        simp only [ht, if_true]
        omega
      · simp [ht]

/-- C8: an error is classified transient exactly when its text contains,
case-folded, one of the five fixed substrings "short write", "timeout",
"temporarily", "reset", "closed"; the fetch loop makes at most 3 attempts
in total (2 extra beyond the first); a first error that matches none of
the substrings stops the loop after the single attempt (logged, no
retry); and when every attempt fails transiently all 3 attempts are made
and the last error is returned. -/
theorem fetch_retry_policy (results : Nat → Except String Nat) :
    (fetchWithRetry results).1 ≤ 3 ∧
    (∀ e, results 0 = Except.error e → isTransient e = false →
      fetchWithRetry results = (1, Except.error e)) ∧
    (∀ e0 e1 e2, results 0 = Except.error e0 → results 1 = Except.error e1 →
      results 2 = Except.error e2 → isTransient e0 = true →
      isTransient e1 = true →
      fetchWithRetry results = (3, Except.error e2)) ∧
    (∀ msg, isTransient msg = true ↔
      (containsStr (lowerStr msg) ("short write") = true ∨
       containsStr (lowerStr msg) ("timeout") = true ∨
       containsStr (lowerStr msg) ("temporarily") = true ∨
       containsStr (lowerStr msg) ("reset") = true ∨
       containsStr (lowerStr msg) ("closed") = true)) := by
  refine ⟨?_, ?_, ?_, ?_⟩
  · have := fetchGo_attempts_le results 2 0
    simpa [fetchWithRetry, maxFetchRetry] using this
  · intro e h0 ht
    simp [fetchWithRetry, maxFetchRetry, fetchGo, h0, ht]
  · intro e0 e1 e2 h0 h1 h2 t0 t1
    simp [fetchWithRetry, maxFetchRetry, fetchGo, h0, h1, h2, t0, t1]
  · intro msg
    simp [isTransient, transientPatterns]

/-- C8 witness: every attempt failing with the text "timeout" (transient)
exhausts all 3 attempts and returns the error. -/
theorem fetch_retry_policy_witness :
    fetchWithRetry (fun _ => Except.error ("timeout"))
      = (3, Except.error ("timeout")) :=
  (fetch_retry_policy (fun _ => Except.error ("timeout"))).2.2.1
    ("timeout") ("timeout") ("timeout") rfl rfl rfl (by decide) (by decide)

end Monitor
